import Mathlib

/-!
Verification development for the concurrent matrix-multiplication engine in
`src/MatrixMultiplication.c` (repository `C_Threads_Tutorial`).

The C code is shallowly embedded: matrix contents are total functions
`Nat → Nat → Int` together with explicit dimensions (C's two-level
`int**` layout is modelled separately, for the allocation claims, as a list
of row slots); `unsigned int` arithmetic is `Nat` with an explicit
`% 2 ^ 32` where wraparound matters; `rand()` outputs are an abstract
stream of nonnegative integers; the concurrent execution of the worker
threads is modelled as folding the per-thread writes over an arbitrary
permutation of the dispatch order, since the mutex serialises the writes
but fixes no order.
-/

namespace MatrixMult

/-! ### Source constants (`#define` block, MatrixMultiplication.c lines 28-31) -/

def MIN_MAT_DIM : Int := 1
def MAX_MAT_DIM : Int := 5
def MIN_MAT_VAL : Int := 0
def MAX_MAT_VAL : Int := 10

/-- C `unsigned int` modulus. -/
def UINT_MOD : Nat := 2 ^ 32

/-! ### `getDelimitedRandomInteger` (lines 98-101)

`return (rand() % (max_val - min_val + 1) + min_val);`
`rand()` is modelled by the abstract nonnegative input `r`; C's `%` on
`int` truncates toward zero, which is `Int.tmod`. -/

def getDelimitedRandomInteger (r min_val max_val : Int) : Int :=
  Int.tmod r (max_val - min_val + 1) + min_val

/-! ### `multiplyRowByColumn` (lines 151-159)

The loop `for(i = 0; i < A_cols; i++) ret += A[row_A][i] * B[i][col_B];`
becomes a left fold over `List.range A_cols`. Matrix contents are `Int`
valued; the demo's entries lie in `[0, 10]` with dimensions at most 5, so
no `int` overflow occurs and mathematical integers are faithful. -/

def multiplyRowByColumn (A B : Nat → Nat → Int) (A_cols row_A col_B : Nat) : Int :=
  (List.range A_cols).foldl (fun ret i => ret + A row_A i * B i col_B) 0

/-- Spec-side definition: the standard sequential matrix product cell,
`sum_{k=0}^{A_cols-1} A[i][k] * B[k][j]` (spec §4.3 step 2, §8). -/
def specProductCell (A B : Nat → Nat → Int) (A_cols i j : Nat) : Int :=
  ∑ k ∈ Finset.range A_cols, A i k * B k j

/-! ### Worker dispatch (lines 334-340)

`target_row_A = thread_idx / mat_C_cols; target_col_B = thread_idx % mat_C_cols`. -/

def workerCellOfIndex (cols_C idx : Nat) : Nat × Nat :=
  (idx / cols_C, idx % cols_C)

/-! ### `matrixMultThreadRoutine` (lines 233-255), write into C

`mat_C[target_row_A][target_col_B] = calculated_value;` under the mutex. -/

def writeCell (C : Nat → Nat → Int) (i j : Nat) (v : Int) : Nat → Nat → Int :=
  fun a b => if a = i ∧ b = j then v else C a b

/-- The state-transforming effect of one worker thread on the result
matrix: compute the dot product from A and B, then store it into its
target cell of C. -/
def threadWrite (A B : Nat → Nat → Int) (A_cols cols_C : Nat) (idx : Nat)
    (C : Nat → Nat → Int) : Nat → Nat → Int :=
  writeCell C (workerCellOfIndex cols_C idx).1 (workerCellOfIndex cols_C idx).2
    (multiplyRowByColumn A B A_cols (workerCellOfIndex cols_C idx).1
      (workerCellOfIndex cols_C idx).2)

/-- The parallel phase: the mutex serialises the single-cell writes of the
spawned workers into some order; `order` ranges over every permutation of
the dispatch indices `[0, rows_C * cols_C)`. -/
def runDispatch (A B : Nat → Nat → Int) (A_cols cols_C : Nat)
    (order : List Nat) (C0 : Nat → Nat → Int) : Nat → Nat → Int :=
  order.foldl (fun C idx => threadWrite A B A_cols cols_C idx C) C0

/-! ### Helper lemmas for the dispatch model -/

theorem foldl_range_add (f : Nat → Int) :
    ∀ (n : Nat) (a : Int),
      (List.range n).foldl (fun acc k => acc + f k) a = a + ∑ k ∈ Finset.range n, f k := by
  intro n
  induction n with
  | zero => intro a; simp
  | succ m ih =>
    intro a
    rw [List.range_succ, List.foldl_append, ih a, Finset.sum_range_succ]
    simp [Int.add_assoc]

theorem multiplyRowByColumn_eq_specProductCell (A B : Nat → Nat → Int)
    (A_cols i j : Nat) :
    multiplyRowByColumn A B A_cols i j = specProductCell A B A_cols i j := by
  unfold multiplyRowByColumn specProductCell
  rw [foldl_range_add (fun k => A i k * B k j) A_cols 0]
  simp

theorem runDispatch_preserved (A B : Nat → Nat → Int) (A_cols cols_C i j : Nat) :
    ∀ (order : List Nat) (C0 : Nat → Nat → Int),
      (∀ idx ∈ order, ¬(idx / cols_C = i ∧ idx % cols_C = j)) →
      runDispatch A B A_cols cols_C order C0 i j = C0 i j := by
  intro order
  induction order with
  | nil => intro C0 _; rfl
  | cons x rest ih =>
    intro C0 hno
    have hx : ¬(x / cols_C = i ∧ x % cols_C = j) := hno x (List.mem_cons_self x rest)
    have hrest : ∀ idx ∈ rest, ¬(idx / cols_C = i ∧ idx % cols_C = j) := by
      intro idx hidx
      exact hno idx (List.mem_cons_of_mem x hidx)
    show runDispatch A B A_cols cols_C rest (threadWrite A B A_cols cols_C x C0) i j = C0 i j
    rw [ih _ hrest]
    unfold threadWrite writeCell workerCellOfIndex
    simp only
    rw [if_neg]
    intro hcon
    exact hx ⟨hcon.1.symm, hcon.2.symm⟩

theorem runDispatch_written (A B : Nat → Nat → Int) (A_cols cols_C i j : Nat) :
    ∀ (order : List Nat) (C0 : Nat → Nat → Int),
      (∃ idx ∈ order, idx / cols_C = i ∧ idx % cols_C = j) →
      runDispatch A B A_cols cols_C order C0 i j = multiplyRowByColumn A B A_cols i j := by
  intro order
  induction order with
  | nil => intro C0 h; simp at h
  | cons x rest ih =>
    intro C0 hex
    show runDispatch A B A_cols cols_C rest (threadWrite A B A_cols cols_C x C0) i j = _
    by_cases hrest : ∃ idx ∈ rest, idx / cols_C = i ∧ idx % cols_C = j
    · exact ih _ hrest
    · obtain ⟨idx, hmem, hdiv, hmod⟩ := hex
      have hxi : idx = x := by
        rcases List.mem_cons.mp hmem with h | h
        · exact h
        · exact absurd ⟨idx, h, hdiv, hmod⟩ hrest
      subst hxi
      have hnone : ∀ k ∈ rest, ¬(k / cols_C = i ∧ k % cols_C = j) := by
        intro k hk hcon
        exact hrest ⟨k, hk, hcon⟩
      rw [runDispatch_preserved A B A_cols cols_C i j rest _ hnone]
      unfold threadWrite writeCell workerCellOfIndex
      simp only
      rw [hdiv, hmod, if_pos ⟨rfl, rfl⟩]

/-! ### Index arithmetic for the cell mapping -/

theorem flat_index_lt (rows cols a b : Nat) (ha : a < rows) (hb : b < cols) :
    a * cols + b < rows * cols := by
  have hsucc : a + 1 ≤ rows := ha
  have hmul : (a + 1) * cols ≤ rows * cols := Nat.mul_le_mul_right cols hsucc
  have hexp : (a + 1) * cols = a * cols + cols := Nat.succ_mul a cols
  omega

theorem workerCellOfIndex_flat (c i j : Nat) (hj : j < c) :
    workerCellOfIndex c (i * c + j) = (i, j) := by
  unfold workerCellOfIndex
  have hc : 0 < c := Nat.pos_of_ne_zero (by rintro rfl; exact Nat.not_lt_zero j hj)
  have h1 : (i * c + j) / c = i := by
    rw [Nat.mul_comm i c, Nat.mul_add_div hc, Nat.div_eq_of_lt hj, Nat.add_zero]
  have h2 : (i * c + j) % c = j := by
    rw [Nat.add_comm, Nat.add_mul_mod_self_right, Nat.mod_eq_of_lt hj]
  rw [h1, h2]

/-- The dispatch map `idx ↦ (idx / cols_C, idx % cols_C)` is a bijection
from `[0, rows_C * cols_C)` onto `[0, rows_C) × [0, cols_C)`: well-defined,
injective, and surjective. -/
def cellMapIsBijective (rows_C cols_C : Nat) : Prop :=
  (∀ i, i < rows_C * cols_C →
      (workerCellOfIndex cols_C i).1 < rows_C ∧ (workerCellOfIndex cols_C i).2 < cols_C) ∧
  (∀ i, i < rows_C * cols_C → ∀ j, j < rows_C * cols_C →
      workerCellOfIndex cols_C i = workerCellOfIndex cols_C j → i = j) ∧
  (∀ p : Nat × Nat, p.1 < rows_C → p.2 < cols_C →
      ∃ i, i < rows_C * cols_C ∧ workerCellOfIndex cols_C i = p)

/-! ### Concrete demo matrices from spec §8:
`A=[[1,2],[3,4]]`, `B=[[5,6],[7,8]]`, expected `C=[[19,22],[43,50]]`. -/

def testA : Nat → Nat → Int := fun i j =>
  if i = 0 ∧ j = 0 then 1 else if i = 0 ∧ j = 1 then 2
  else if i = 1 ∧ j = 0 then 3 else if i = 1 ∧ j = 1 then 4 else 0

def testB : Nat → Nat → Int := fun i j =>
  if i = 0 ∧ j = 0 then 5 else if i = 0 ∧ j = 1 then 6
  else if i = 1 ∧ j = 0 then 7 else if i = 1 ∧ j = 1 then 8 else 0

/-! ### Claim theorems C1 and C2 -/

/-- C1: for matrices A (r1×c1) and B (c1×c2), after the dispatched workers
have all performed their serialised writes — in any order, i.e. for every
permutation of the dispatch indices — every cell `C[i][j]` of the result
equals `sum_{k=0}^{c1-1} A[i][k] * B[k][j]`, the standard sequential
matrix product, cell by cell. -/
theorem multiply_computes_standard_product
    (A B : Nat → Nat → Int) (r1 c1 c2 : Nat) (C0 : Nat → Nat → Int)
    (order : List Nat) (hperm : order.Perm (List.range (r1 * c2)))
    (i j : Nat) (hi : i < r1) (hj : j < c2) :
    runDispatch A B c1 c2 order C0 i j = specProductCell A B c1 i j := by
  have hmem : i * c2 + j ∈ order :=
    (hperm.mem_iff).mpr (List.mem_range.mpr (flat_index_lt r1 c2 i j hi hj))
  have hcell := workerCellOfIndex_flat c2 i j hj
  have hdiv : (i * c2 + j) / c2 = i := congrArg Prod.fst hcell
  have hmod : (i * c2 + j) % c2 = j := congrArg Prod.snd hcell
  rw [runDispatch_written A B c1 c2 i j order C0 ⟨i * c2 + j, hmem, hdiv, hmod⟩]
  exact multiplyRowByColumn_eq_specProductCell A B c1 i j

/-- Witness for C1 at the spec §8 test vector, with the workers' writes
arriving in the scrambled order `[2, 0, 3, 1]`: cell (0,1) of the result
equals the standard product cell, whose value is 22. -/
theorem multiply_computes_standard_product_witness :
    ([2, 0, 3, 1].Perm (List.range (2 * 2)) ∧ 0 < 2 ∧ 1 < 2) ∧
    runDispatch testA testB 2 2 [2, 0, 3, 1] (fun _ _ => 0) 0 1
      = specProductCell testA testB 2 0 1 ∧
    specProductCell testA testB 2 0 1 = 22 :=
  ⟨⟨by decide, by decide, by decide⟩,
   multiply_computes_standard_product testA testB 2 2 2 (fun _ _ => 0) [2, 0, 3, 1]
     (by decide) 0 1 (by decide) (by decide),
   by decide⟩

/-- C2: for rows_C ≥ 1 and cols_C ≥ 1, the worker-index-to-cell map
`i ↦ (i / cols_C, i % cols_C)` is a bijection from `[0, rows_C * cols_C)`
onto `[0, rows_C) × [0, cols_C)`: every output cell is dispatched exactly
once and no two worker indices target the same cell. -/
theorem worker_index_to_cell_bijective (rows_C cols_C : Nat)
    (_hr : 1 ≤ rows_C) (hc : 1 ≤ cols_C) :
    cellMapIsBijective rows_C cols_C := by
  have hcpos : 0 < cols_C := hc
  refine ⟨?_, ?_, ?_⟩
  · intro i hi
    constructor
    · exact (Nat.div_lt_iff_lt_mul hcpos).mpr hi
    · exact Nat.mod_lt i hcpos
  · intro i _ j _ heq
    have hdiv : i / cols_C = j / cols_C := congrArg Prod.fst heq
    have hmod : i % cols_C = j % cols_C := congrArg Prod.snd heq
    have h1 := Nat.div_add_mod i cols_C
    have h2 := Nat.div_add_mod j cols_C
    rw [hdiv, hmod] at h1
    rw [h1] at h2
    exact h2
  · intro p hp1 hp2
    exact ⟨p.1 * cols_C + p.2, flat_index_lt rows_C cols_C p.1 p.2 hp1 hp2,
      workerCellOfIndex_flat cols_C p.1 p.2 hp2⟩

/-- Witness for C2 at rows_C = 2, cols_C = 3. -/
theorem worker_index_to_cell_bijective_witness :
    1 ≤ 2 ∧ 1 ≤ 3 ∧ cellMapIsBijective 2 3 :=
  ⟨by decide, by decide, worker_index_to_cell_bijective 2 3 (by decide) (by decide)⟩

/-! ### Fail-fast rollback loop (lines 349-350)

`for(unsigned int cancel_idx = (thread_idx - 1); cancel_idx >= 0; cancel_idx--)
     pthread_cancel(threads[cancel_idx]);`

`cancel_idx` is `unsigned int`: subtraction wraps modulo `2 ^ 32` and the
guard `cancel_idx >= 0` compares an unsigned value against 0. The run is
fuel-bounded and returns the list of indices passed to `pthread_cancel`
together with a flag telling whether the loop exited by its guard. -/

/-- Unsigned-int decrement by one: `x - 1` on C `unsigned int`. -/
def uintSubOne (x : Nat) : Nat := (x + (UINT_MOD - 1)) % UINT_MOD

/-- The loop guard `cancel_idx >= 0`, on an unsigned value. -/
def cancelLoopGuard (cancel_idx : Nat) : Bool := decide (0 ≤ cancel_idx)

/-- Fuel-bounded run of the cancellation loop body from a current index:
returns (indices cancelled, whether the guard ever exited the loop). -/
def cancelLoopRun : Nat → Nat → List Nat × Bool
  | 0, _ => ([], false)
  | fuel + 1, cancel_idx =>
    if cancelLoopGuard cancel_idx then
      let rest := cancelLoopRun fuel (uintSubOne cancel_idx)
      (cancel_idx :: rest.1, rest.2)
    else ([], true)

/-- The rollback as entered after a spawn failure at `thread_idx`: the
loop starts at `thread_idx - 1` computed in unsigned arithmetic. -/
def rollbackCancelRun (thread_idx fuel : Nat) : List Nat × Bool :=
  cancelLoopRun fuel (uintSubOne thread_idx)

theorem cancelLoopRun_never_exits : ∀ (fuel idx : Nat), (cancelLoopRun fuel idx).2 = false := by
  intro fuel
  induction fuel with
  | zero => intro idx; rfl
  | succ n ih => intro idx; simp [cancelLoopRun, cancelLoopGuard, ih]

/-! ### Scheduling attribute model (`setAttr`, lines 205-231, and the
demo's configuration sequence, lines 292-331)

`pthread_attr_t` is modelled by its scheduling-relevant fields. Each
`pthread_attr_set*` call's OS outcome is an oracle error code (0 =
success, positive errno = rejection, per POSIX); a failed call leaves the
attribute object unchanged and `setAttr` returns that errno at once. -/

def SCHED_OTHER : Int := 0
def SCHED_FIFO : Int := 1
def SCHED_RR : Int := 2
def PTHREAD_INHERIT_SCHED : Int := 0
def PTHREAD_EXPLICIT_SCHED : Int := 1

structure PthreadAttr where
  schedpolicy : Int
  schedpriority : Int
  inheritsched : Int
deriving DecidableEq

/-- `setAttr` (lines 205-231): applies the three `pthread_attr_set*`
steps in order, returning the updated attribute object and the first
nonzero error code (or 0). The C parameter names are kept. -/
def setAttr (p_attr : PthreadAttr) (scheduling_policy sched_priority
    schdueling_policy_inheritance : Int) (e1 e2 e3 : Int) : PthreadAttr × Int :=
  if e1 ≠ 0 then (p_attr, e1)
  else
    let a1 : PthreadAttr := { p_attr with schedpolicy := scheduling_policy }
    if e2 ≠ 0 then (a1, e2)
    else
      let a2 : PthreadAttr := { a1 with schedpriority := sched_priority }
      if e3 ≠ 0 then (a2, e3)
      else ({ a2 with inheritsched := schdueling_policy_inheritance }, e3)

/-- `pthread_attr_init` resets every attribute to its default: policy
`SCHED_OTHER`, priority 0, `PTHREAD_INHERIT_SCHED`. -/
def pthreadAttrDefault : PthreadAttr :=
  { schedpolicy := SCHED_OTHER, schedpriority := 0, inheritsched := PTHREAD_INHERIT_SCHED }

def pthread_attr_init (_p_attr : PthreadAttr) : PthreadAttr := pthreadAttrDefault

/-- The demo's configured attribute object right after `setAttr` at line
298 succeeds: `SCHED_RR`, `sched_get_priority_max(SCHED_RR)` (abstract
`maxprio`), `PTHREAD_EXPLICIT_SCHED`, starting from arbitrary contents
`g` of the uninitialised `attr`. -/
def demoConfiguredAttr (g : PthreadAttr) (maxprio : Int) : PthreadAttr :=
  (setAttr g SCHED_RR maxprio PTHREAD_EXPLICIT_SCHED 0 0 0).1

/-- The attribute object actually passed to every `pthread_create` at
line 340: the demo calls `pthread_attr_init(&attr)` at line 331 after
`setAttr` at line 298, so the spawn loop sees the re-initialised object. -/
def demoAttrAtSpawn (g : PthreadAttr) (maxprio : Int) : PthreadAttr :=
  pthread_attr_init (demoConfiguredAttr g maxprio)

/-- The demo's guard on the `setAttr` status (line 300):
`if(set_attr_status < 0) return;` — the procedure stops only when the
status is negative. -/
def checkSetAttrGuardStops (set_attr_status : Int) : Bool :=
  decide (set_attr_status < 0)

/-! ### Two-level matrix allocation model (`allocateMatrix` lines 79-95,
`deallocateMatrix` lines 143-149)

Row slots of the `int**` array: `valid` (row malloc succeeded), `nullPtr`
(the failed row's slot, assigned NULL by the failed malloc), `uninit`
(slot past the failure point, never assigned). `free` is safe on a valid
or NULL pointer and invalid on an indeterminate one. -/

inductive RowSlot where
  | valid
  | nullPtr
  | uninit
deriving DecidableEq

/-- The row-pointer array `allocateMatrix rows cols` leaves behind when
the malloc of row `fail_row` fails: earlier rows allocated, the failed
slot NULL, later slots never written (the function returns NULL at once). -/
def allocateMatrixLeftover (rows fail_row : Nat) : List RowSlot :=
  (List.range rows).map fun i =>
    if i < fail_row then RowSlot.valid
    else if i = fail_row then RowSlot.nullPtr
    else RowSlot.uninit

def freeIsSafe : RowSlot → Bool
  | RowSlot.valid => true
  | RowSlot.nullPtr => true
  | RowSlot.uninit => false

/-- `deallocateMatrix(mat, rows)` frees `mat[0] .. mat[rows-1]`
unconditionally; the call is safe iff every slot it frees holds a valid
or NULL pointer. -/
def deallocateMatrixSafe (mat : List RowSlot) (rows : Nat) : Bool :=
  ((List.range rows).map fun i => mat.getD i RowSlot.uninit).all freeIsSafe

/-! ### Claim theorems C3, C5, C6, C7 -/

/-- C3 (code bug): the rollback loop's counter is `unsigned int`, so its
guard `cancel_idx >= 0` is always true: for every failure index `k` and
every fuel bound the loop never exits by its guard (it hangs instead of
returning immediately), and concretely, after a spawn failure at `k = 2`
the first three cancellations go to indices `1, 0, 2^32 - 1` — the third
is outside the spawned workers `0..1` — while at `k = 0` the very first
cancellation already targets index `2^32 - 1` instead of cancelling
nothing. -/
theorem cancel_rollback_loop_never_terminates :
    (∀ k fuel, (rollbackCancelRun k fuel).2 = false) ∧
    (rollbackCancelRun 2 3).1 = [1, 0, UINT_MOD - 1] ∧
    (rollbackCancelRun 0 1).1 = [UINT_MOD - 1] := by
  refine ⟨?_, ?_, ?_⟩
  · intro k fuel
    exact cancelLoopRun_never_exits fuel (uintSubOne k)
  · decide
  · decide

/-- C5 (code bug): `setAttr` at line 298 does configure the attribute
object with `SCHED_RR`, the maximal priority and explicit inheritance,
but `pthread_attr_init(&attr)` at line 331 runs afterwards and resets it,
so the attribute object passed to every spawn is the default one: the
chosen policy, priority and explicit-inheritance setting are *not* in
effect at any spawn. -/
theorem configured_attr_reset_before_spawn (g : PthreadAttr) (maxprio : Int) :
    (demoConfiguredAttr g maxprio).schedpolicy = SCHED_RR ∧
    (demoConfiguredAttr g maxprio).schedpriority = maxprio ∧
    (demoConfiguredAttr g maxprio).inheritsched = PTHREAD_EXPLICIT_SCHED ∧
    demoAttrAtSpawn g maxprio = pthreadAttrDefault ∧
    (demoAttrAtSpawn g maxprio).schedpolicy ≠ SCHED_RR ∧
    (demoAttrAtSpawn g maxprio).inheritsched ≠ PTHREAD_EXPLICIT_SCHED := by
  refine ⟨rfl, rfl, rfl, rfl, ?_, ?_⟩
  · show pthreadAttrDefault.schedpolicy ≠ SCHED_RR
    decide
  · show pthreadAttrDefault.inheritsched ≠ PTHREAD_EXPLICIT_SCHED
    decide

/-- C6 (code bug): POSIX `pthread_attr_set*` failures are reported as
*positive* errno values, but the demo's guard at line 300 only stops the
procedure when `set_attr_status < 0`; hence for every nonnegative outcome
triple — rejections included — the guard never stops, and the dispatch
loop is entered even after the OS rejected a scheduling value. -/
theorem attr_error_does_not_stop_dispatch (g : PthreadAttr) (maxprio : Int)
    (e1 e2 e3 : Int) (h1 : 0 ≤ e1) (h2 : 0 ≤ e2) (h3 : 0 ≤ e3) :
    checkSetAttrGuardStops
      (setAttr g SCHED_RR maxprio PTHREAD_EXPLICIT_SCHED e1 e2 e3).2 = false := by
  unfold setAttr checkSetAttrGuardStops
  by_cases he1 : e1 ≠ 0
  · simp only [if_pos he1]
    exact decide_eq_false (not_lt.mpr h1)
  · simp only [if_neg he1]
    by_cases he2 : e2 ≠ 0
    · simp only [if_pos he2]
      exact decide_eq_false (not_lt.mpr h2)
    · simp only [if_neg he2]
      by_cases he3 : e3 ≠ 0
      · simp only [if_pos he3]
        exact decide_eq_false (not_lt.mpr h3)
      · simp only [if_neg he3]
        exact decide_eq_false (not_lt.mpr h3)

/-- Witness for C6 at the failing input: `pthread_attr_setschedpolicy`
returns errno 22 (`EINVAL`), a genuine rejection, yet the guard does not
stop the procedure. -/
theorem attr_error_does_not_stop_dispatch_witness :
    ((0:Int) ≤ 22 ∧ (0:Int) ≤ 0) ∧
    (setAttr pthreadAttrDefault SCHED_RR 99 PTHREAD_EXPLICIT_SCHED 22 0 0).2 = 22 ∧
    checkSetAttrGuardStops
      (setAttr pthreadAttrDefault SCHED_RR 99 PTHREAD_EXPLICIT_SCHED 22 0 0).2 = false :=
  ⟨⟨by decide, by decide⟩, by decide,
   attr_error_does_not_stop_dispatch pthreadAttrDefault 99 22 0 0
     (by decide) (by decide) (by decide)⟩

/-- C7 (code bug): `deallocateMatrix` is not safe on a partially
allocated matrix. When the malloc of row 0 of a 2-row matrix fails,
`allocateMatrix` leaves `[NULL, uninitialised]` behind, and
`deallocateMatrix(mat, 2)` frees the uninitialised slot — an invalid row
pointer; likewise for a 3-row matrix failing at row 1. -/
theorem deallocate_unsafe_on_partial_alloc :
    allocateMatrixLeftover 2 0 = [RowSlot.nullPtr, RowSlot.uninit] ∧
    deallocateMatrixSafe (allocateMatrixLeftover 2 0) 2 = false ∧
    deallocateMatrixSafe (allocateMatrixLeftover 3 1) 3 = false := by
  decide

/-! ### The engine boundary and its event trace (for C4)

The spec (§6) presents the boundary `multiply(A, B, config)`; in the
source the whole engine lives in `exampleMatrixMultiplication`
(lines 257-379), which creates A and B itself. The trace below
transcribes the engine path of lines 274-354 with the two input matrices
generalised to that boundary; everything else follows the source: the
result matrix is allocated immediately (line 274), no dimension of A or B
is ever compared or validated, and the dispatch loop (lines 334-354)
spawns one worker per result cell. -/

structure CMatrix where
  rows : Nat
  cols : Nat
  entry : Nat → Nat → Int

/-- The spec's error vocabulary (§7). The source has no representation of
`InvalidDimension` at all; the constructor exists here only so that its
absence from every trace can be stated. -/
inductive EngineError where
  | invalidDimension
  | allocationFailure
  | attributeError
  | spawnFailure
deriving DecidableEq

inductive EngineEvent where
  | allocMatrix (rows cols : Nat)
  | spawnWorker (idx : Nat)
  | fail (e : EngineError)
deriving DecidableEq

/-- The engine's observable events on inputs A and B (success path of
lines 274-354): allocate C with `mat_C_rows = A.rows`,
`mat_C_cols = B.cols`, then spawn `A.rows * B.cols` workers. There is no
dimension check before the allocation or anywhere else. -/
def multiplyEvents (A B : CMatrix) : List EngineEvent :=
  EngineEvent.allocMatrix A.rows B.cols ::
    (List.range (A.rows * B.cols)).map EngineEvent.spawnWorker

/-- A 1×2 and a 1×1 matrix: `A.cols = 2 ≠ 1 = B.rows`. -/
def mismatchedA : CMatrix := ⟨1, 2, fun _ _ => 1⟩
def mismatchedB : CMatrix := ⟨1, 1, fun _ _ => 1⟩

/-! ### The worker routine as a state transformer and event list (for C8) -/

structure MultState where
  mat_A : Nat → Nat → Int
  mat_B : Nat → Nat → Int
  mat_C : Nat → Nat → Int

/-- `matrixMultThreadRoutine` (lines 233-255) acting on the shared
matrices: compute the dot product for this worker's
`(target_row_A, target_col_B)`, then store it into that cell of
`mat_C`; `mat_A` and `mat_B` are only read. -/
def matrixMultThreadRoutine (target_row_A target_col_B mat_A_cols : Nat)
    (st : MultState) : MultState :=
  { st with mat_C := (writeCell st.mat_C target_row_A target_col_B
      (multiplyRowByColumn st.mat_A st.mat_B mat_A_cols target_row_A target_col_B)) }

/-- The worker routine's statement-level events, in source order
(lines 236, 237, 241, 248, 250, 252). -/
inductive ThreadEvent where
  | setCancelStateEnable
  | setCancelTypeDeferred
  | computeDot (row col : Nat)
  | mutexLock
  | writeC (row col : Nat)
  | mutexUnlock
deriving DecidableEq

def matrixMultThreadRoutineEvents (target_row_A target_col_B : Nat) : List ThreadEvent :=
  [ThreadEvent.setCancelStateEnable, ThreadEvent.setCancelTypeDeferred,
   ThreadEvent.computeDot target_row_A target_col_B, ThreadEvent.mutexLock,
   ThreadEvent.writeC target_row_A target_col_B, ThreadEvent.mutexUnlock]

/-- The events a thread performs while holding the mutex: everything
strictly between the lock acquisition and the release. -/
def criticalSectionOf (evs : List ThreadEvent) : List ThreadEvent :=
  ((evs.dropWhile fun e => decide (e ≠ ThreadEvent.mutexLock)).drop 1).takeWhile
    fun e => decide (e ≠ ThreadEvent.mutexUnlock)

/-! ### Demo input generation (for C9 and C10) -/

/-- `populateRandomValuesMatrix` (lines 103-118): the nested loops fill
the cells in row-major order with consecutive `rand()` outputs, so cell
`(i, j)` of a matrix with `mat_cols` columns consumes stream element
`i * mat_cols + j`. -/
def populateRandomValuesMatrix (rand_stream : Nat → Int) (mat_cols : Nat)
    (min_val max_val : Int) (i j : Nat) : Int :=
  getDelimitedRandomInteger (rand_stream (i * mat_cols + j)) min_val max_val

structure DemoDims where
  mat_A_rows : Int
  mat_A_cols : Int
  mat_B_rows : Int
  mat_B_cols : Int
  mat_C_rows : Int
  mat_C_cols : Int

/-- The dimension setup of `exampleMatrixMultiplication` (lines 263-270),
consuming the first three `rand()` outputs. -/
def exampleMatrixMultiplicationDims (r0 r1 r2 : Int) : DemoDims :=
  let mat_A_rows := getDelimitedRandomInteger r0 MIN_MAT_DIM MAX_MAT_DIM
  let mat_A_cols := getDelimitedRandomInteger r1 MIN_MAT_DIM MAX_MAT_DIM
  let mat_B_rows := mat_A_cols
  let mat_B_cols := getDelimitedRandomInteger r2 MIN_MAT_DIM MAX_MAT_DIM
  let mat_C_rows := mat_A_rows
  let mat_C_cols := mat_B_cols
  ⟨mat_A_rows, mat_A_cols, mat_B_rows, mat_B_cols, mat_C_rows, mat_C_cols⟩

theorem getDelimitedRandomInteger_mem (r min_val max_val : Int)
    (hr : 0 ≤ r) (hle : min_val ≤ max_val) :
    min_val ≤ getDelimitedRandomInteger r min_val max_val ∧
    getDelimitedRandomInteger r min_val max_val ≤ max_val := by
  unfold getDelimitedRandomInteger
  have hpos : 0 < max_val - min_val + 1 := by omega
  have h1 : 0 ≤ Int.tmod r (max_val - min_val + 1) := Int.tmod_nonneg _ hr
  have h2 : Int.tmod r (max_val - min_val + 1) < max_val - min_val + 1 :=
    Int.tmod_lt_of_pos r hpos
  omega

/-! ### Claim theorems C4, C8, C9, C10 -/

/-- C4 counterexample: on the concrete input A (1×2), B (1×1) —
`A.cols = 2 ≠ 1 = B.rows` — the engine does not fail with
`InvalidDimension`: its very first action is allocating the 1×1 result
matrix, and no `InvalidDimension` failure occurs anywhere in the trace. -/
theorem no_dimension_check_counterexample :
    mismatchedA.cols ≠ mismatchedB.rows ∧
    (multiplyEvents mismatchedA mismatchedB).head?
      = some (EngineEvent.allocMatrix 1 1) ∧
    EngineEvent.fail EngineError.invalidDimension
      ∉ multiplyEvents mismatchedA mismatchedB := by
  refine ⟨by decide, rfl, by decide⟩

/-- C4 amended: the engine performs no dimension validation at all. On
every pair of input matrices — dimension mismatches and degenerate
dimensions included — it never fails with `InvalidDimension`, and its
first action is allocating the result matrix. (In the demo driver the
dimension invariant holds by construction, so the missing check is never
exercised there.) -/
theorem multiply_never_rejects_dimensions (A B : CMatrix) :
    EngineEvent.fail EngineError.invalidDimension ∉ multiplyEvents A B ∧
    (multiplyEvents A B).head? = some (EngineEvent.allocMatrix A.rows B.cols) := by
  constructor
  · intro hmem
    unfold multiplyEvents at hmem
    rcases List.mem_cons.mp hmem with h | h
    · exact EngineEvent.noConfusion h
    · obtain ⟨idx, _, h⟩ := List.mem_map.mp h
      exact EngineEvent.noConfusion h
  · rfl

/-- C8: a worker modifies exactly one memory location. It leaves `mat_A`
and `mat_B` unchanged, writes its dot product into
`mat_C[target_row_A][target_col_B]`, leaves every other cell of `mat_C`
unchanged, and its critical section — the events between mutex lock and
unlock — consists of that single write only. -/
theorem worker_single_cell_frame (target_row_A target_col_B mat_A_cols : Nat)
    (st : MultState) :
    (matrixMultThreadRoutine target_row_A target_col_B mat_A_cols st).mat_A = st.mat_A ∧
    (matrixMultThreadRoutine target_row_A target_col_B mat_A_cols st).mat_B = st.mat_B ∧
    (matrixMultThreadRoutine target_row_A target_col_B mat_A_cols st).mat_C
        target_row_A target_col_B
      = multiplyRowByColumn st.mat_A st.mat_B mat_A_cols target_row_A target_col_B ∧
    (∀ i j, (i, j) ≠ (target_row_A, target_col_B) →
      (matrixMultThreadRoutine target_row_A target_col_B mat_A_cols st).mat_C i j
        = st.mat_C i j) ∧
    criticalSectionOf (matrixMultThreadRoutineEvents target_row_A target_col_B)
      = [ThreadEvent.writeC target_row_A target_col_B] := by
  refine ⟨rfl, rfl, ?_, ?_, ?_⟩
  · show writeCell st.mat_C target_row_A target_col_B _ target_row_A target_col_B = _
    unfold writeCell
    rw [if_pos ⟨rfl, rfl⟩]
  · intro i j hne
    show writeCell st.mat_C target_row_A target_col_B _ i j = st.mat_C i j
    unfold writeCell
    rw [if_neg]
    rintro ⟨h1, h2⟩
    exact hne (by rw [h1, h2])
  · rfl

/-- Witness for C8 at the concrete worker (0,1) with A-width 2 on the
spec §8 matrices: the untouched cell (1,1) keeps its initial value. -/
theorem worker_single_cell_frame_witness :
    (((1 : Nat), (1 : Nat)) ≠ ((0 : Nat), (1 : Nat))) ∧
    (matrixMultThreadRoutine 0 1 2 ⟨testA, testB, fun _ _ => 0⟩).mat_C 1 1
      = (MultState.mk testA testB (fun _ _ => 0)).mat_C 1 1 :=
  ⟨by decide,
   (worker_single_cell_frame 0 1 2 ⟨testA, testB, fun _ _ => 0⟩).2.2.2.1 1 1 (by decide)⟩

/-- C9: in every demo run (`rand()` outputs are nonnegative), the
generated dimensions satisfy the dimension invariant by construction —
`mat_B_rows = mat_A_cols`, `mat_C_rows = mat_A_rows`,
`mat_C_cols = mat_B_cols` — the three drawn dimensions lie in
`[MIN_MAT_DIM, MAX_MAT_DIM] = [1, 5]`, and every generated cell value
lies in `[MIN_MAT_VAL, MAX_MAT_VAL] = [0, 10]`; so a dimension-invariant
violation is unreachable from the demo entry point. -/
theorem demo_dimension_invariant_by_construction (r0 r1 r2 : Int)
    (rand_stream : Nat → Int) (h0 : 0 ≤ r0) (h1 : 0 ≤ r1) (h2 : 0 ≤ r2)
    (hs : ∀ n, 0 ≤ rand_stream n) :
    (exampleMatrixMultiplicationDims r0 r1 r2).mat_B_rows
      = (exampleMatrixMultiplicationDims r0 r1 r2).mat_A_cols ∧
    (exampleMatrixMultiplicationDims r0 r1 r2).mat_C_rows
      = (exampleMatrixMultiplicationDims r0 r1 r2).mat_A_rows ∧
    (exampleMatrixMultiplicationDims r0 r1 r2).mat_C_cols
      = (exampleMatrixMultiplicationDims r0 r1 r2).mat_B_cols ∧
    (MIN_MAT_DIM ≤ (exampleMatrixMultiplicationDims r0 r1 r2).mat_A_rows ∧
      (exampleMatrixMultiplicationDims r0 r1 r2).mat_A_rows ≤ MAX_MAT_DIM) ∧
    (MIN_MAT_DIM ≤ (exampleMatrixMultiplicationDims r0 r1 r2).mat_A_cols ∧
      (exampleMatrixMultiplicationDims r0 r1 r2).mat_A_cols ≤ MAX_MAT_DIM) ∧
    (MIN_MAT_DIM ≤ (exampleMatrixMultiplicationDims r0 r1 r2).mat_B_cols ∧
      (exampleMatrixMultiplicationDims r0 r1 r2).mat_B_cols ≤ MAX_MAT_DIM) ∧
    ∀ (mat_cols i j : Nat),
      MIN_MAT_VAL ≤ populateRandomValuesMatrix rand_stream mat_cols
          MIN_MAT_VAL MAX_MAT_VAL i j ∧
      populateRandomValuesMatrix rand_stream mat_cols MIN_MAT_VAL MAX_MAT_VAL i j
        ≤ MAX_MAT_VAL := by
  have hdim : MIN_MAT_DIM ≤ MAX_MAT_DIM := by decide
  have hval : MIN_MAT_VAL ≤ MAX_MAT_VAL := by decide
  refine ⟨rfl, rfl, rfl,
    getDelimitedRandomInteger_mem r0 MIN_MAT_DIM MAX_MAT_DIM h0 hdim,
    getDelimitedRandomInteger_mem r1 MIN_MAT_DIM MAX_MAT_DIM h1 hdim,
    getDelimitedRandomInteger_mem r2 MIN_MAT_DIM MAX_MAT_DIM h2 hdim,
    ?_⟩
  intro mat_cols i j
  exact getDelimitedRandomInteger_mem (rand_stream (i * mat_cols + j))
    MIN_MAT_VAL MAX_MAT_VAL (hs _) hval

/-- Witness for C9 on the constant stream of `rand()` output 7: the drawn
dimension is `7 % 5 + 1 = 3`. -/
theorem demo_dimension_invariant_by_construction_witness :
    ((0:Int) ≤ 7 ∧ ∀ n : Nat, (0:Int) ≤ (fun _ : Nat => (7:Int)) n) ∧
    (exampleMatrixMultiplicationDims 7 7 7).mat_B_rows
      = (exampleMatrixMultiplicationDims 7 7 7).mat_A_cols ∧
    (exampleMatrixMultiplicationDims 7 7 7).mat_A_rows = 3 :=
  ⟨⟨by decide, fun _ => by show (0:Int) ≤ 7; decide⟩,
   (demo_dimension_invariant_by_construction 7 7 7 (fun _ => 7)
      (by decide) (by decide) (by decide) (fun _ => by show (0:Int) ≤ 7; decide)).1,
   by decide⟩

/-- C10: `getDelimitedRandomInteger` reduces `rand()` modulo
`max_val - min_val + 1`; under the precondition `min_val ≤ max_val` the
divisor is positive (the division-by-zero case is unreachable) and the
result lies in `[min_val, max_val]`; and both call-site argument pairs of
the engine — `(MIN_MAT_DIM, MAX_MAT_DIM)` for dimensions and
`(MIN_MAT_VAL, MAX_MAT_VAL)` for cell values — satisfy that
precondition. -/
theorem random_integer_in_range (r min_val max_val : Int)
    (hr : 0 ≤ r) (hle : min_val ≤ max_val) :
    0 < max_val - min_val + 1 ∧
    min_val ≤ getDelimitedRandomInteger r min_val max_val ∧
    getDelimitedRandomInteger r min_val max_val ≤ max_val ∧
    MIN_MAT_DIM ≤ MAX_MAT_DIM ∧ MIN_MAT_VAL ≤ MAX_MAT_VAL := by
  obtain ⟨hlo, hhi⟩ := getDelimitedRandomInteger_mem r min_val max_val hr hle
  exact ⟨by omega, hlo, hhi, by decide, by decide⟩

/-- Witness for C10 at `rand() = 12` on the cell-value call site
`(0, 10)`: the divisor is 11 and the result `12 % 11 + 0 = 1` is in
range. -/
theorem random_integer_in_range_witness :
    ((0:Int) ≤ 12 ∧ (0:Int) ≤ 10) ∧
    (0 < (10:Int) - 0 + 1 ∧
     (0:Int) ≤ getDelimitedRandomInteger 12 0 10 ∧
     getDelimitedRandomInteger 12 0 10 ≤ 10 ∧
     MIN_MAT_DIM ≤ MAX_MAT_DIM ∧ MIN_MAT_VAL ≤ MAX_MAT_VAL) ∧
    getDelimitedRandomInteger 12 0 10 = 1 :=
  ⟨⟨by decide, by decide⟩,
   random_integer_in_range 12 0 10 (by decide) (by decide),
   by decide⟩

end MatrixMult
